import Mathlib

/-!
# PetAppAPI — shallow embedding of the transactional core

This file embeds, as executable Lean definitions, the parts of the
PetAppAPI Node.js repository that the verified claims are about:

* order creation and status updates (`src/services/review.service.js`,
  part 2: `createOrder`, `updateOrderById`),
* booking cancellation (`src/services/booking.service.js` `cancelBooking`
  and `src/controllers/booking.controller.js` `cancelBooking`),
* the expiration sweeper (`deleteExpiredBookings` in
  `src/services/booking.service.js`; the order half is modelled from the
  spec because `order.service.js`'s sweeper is not in the snapshot),
* the payment coordinator (`confirmPayment` / `cancelPayment` in
  `src/services/auth.service.js`, part 2),
* the slot calculator (`generateTimeslots` / `filterAvailableSlots` in
  `src/services/service.service.js`),
* service review creation with rating aggregation
  (`createReview` in `src/services/service.service.js`),
* the identifier-generating pre-save hooks of the Order, Booking and
  Payment mongoose schemas.

Conventions: Mongo ObjectIds are `Nat`; JS `Date` instants are `Int`
milliseconds since the epoch; money amounts are `Int` (VND); JS strings
are `String`.  A mongoose collection is a `List` of records, `findById`
is `List.find?` on the `id` field and `save` replaces the record with the
same `id`.  A thrown `ApiError` is the `Except.error` branch; because the
JS code persists each `product.save()` immediately, functions that may
throw after saving return the (possibly mutated) store *alongside* the
`Except`, so that partial mutation on failure is observable.
-/

namespace PetApp

/-- HTTP-status taxonomy of `ApiError` as used by the repository
(`http-status` codes 404, 400, 403, 500). -/
inductive ErrCode where
  | notFound
  | badRequest
  | forbidden
  | internalError
  deriving DecidableEq, Repr

/-- `ApiError` from `src/utils/ApiError.js`: an HTTP-equivalent status
code plus a message. -/
structure ApiError where
  code : ErrCode
  message : String
  deriving DecidableEq, Repr

/-! ## Product store (`src/models/product.model.js` fields used by the core) -/

/-- The fields of a Product document that the transactional core reads or
writes: prices, sale flag, stock, sold count and images. -/
structure Product where
  id : Nat
  name : String
  price : Int
  salePrice : Int
  onSale : Bool
  stock : Int
  soldCount : Int
  images : List String
  deriving DecidableEq, Repr

/-- A product collection; `Product.findById`. -/
abbrev ProductStore := List Product

/-- `Product.findById(pid)`. -/
def findProduct (s : ProductStore) (pid : Nat) : Option Product :=
  s.find? (fun p => p.id = pid)

/-- `product.save()`: replace the document with the same `_id`. -/
def saveProduct (s : ProductStore) (p : Product) : ProductStore :=
  s.map (fun q => if q.id = p.id then p else q)

/-! ## Order creation (`createOrder`, review.service.js part 2 lines 257-300) -/

/-- A line item as sent by the client (`orderBody.items[i]` before the
loop annotates it): product reference and quantity. -/
structure OrderItemReq where
  productId : Nat
  quantity : Int
  deriving DecidableEq, Repr

/-- A line item after `createOrder`'s loop has snapshotted the product
data into it. -/
structure OrderItem where
  productId : Nat
  quantity : Int
  name : String
  price : Int
  onSale : Bool
  salePrice : Int
  subtotal : Int
  image : Option String
  deriving DecidableEq, Repr

/-- One entry of an order's `statusHistory` array. -/
structure StatusHistoryEntry where
  status : String
  timestamp : Int
  note : String
  deriving DecidableEq, Repr

/-- The Order document (order schema in the models file, fields used by
the core).  `checkoutExpiration` defaults to creation + 15 minutes. -/
structure Order where
  id : Nat
  customerId : Nat
  items : List OrderItem
  subtotal : Int
  shippingFee : Int
  discount : Int
  totalAmount : Int
  status : String
  statusHistory : List StatusHistoryEntry
  paymentMethod : String
  paymentStatus : String
  cancelledBy : Option String
  cancelReason : Option String
  checkoutExpiration : Int
  paymentId : Option Nat
  createdAt : Int
  deriving DecidableEq, Repr

/-- The request body for `createOrder` (after the controller added
`customerId` and `status`). -/
structure OrderBodyReq where
  customerId : Nat
  items : List OrderItemReq
  status : String
  discount : Option Int
  statusHistory : Option (List StatusHistoryEntry)
  paymentMethod : Option String
  deriving DecidableEq, Repr

/-- The `for (const item of orderBody.items)` loop of `createOrder`:
load each product (`NotFound` if absent), reject if `stock < quantity`
(`BadRequest`), snapshot name/price/onSale/salePrice/subtotal/image into
the item, decrement the stock and save.  Each `product.save()` persists
immediately, so the store is returned even when a later item throws. -/
def processOrderItems : ProductStore → List OrderItemReq →
    (Except ApiError (List OrderItem)) × ProductStore
  | store, [] => (Except.ok [], store)
  | store, item :: rest =>
    match findProduct store item.productId with
    | none => (Except.error ⟨ErrCode.notFound, "Product not found"⟩, store)
    | some product =>
      if product.stock < item.quantity then
        (Except.error ⟨ErrCode.badRequest, "Not enough stock"⟩, store)
      else
        let done : OrderItem :=
          { productId := item.productId
            quantity := item.quantity
            name := product.name
            price := product.price
            onSale := product.onSale
            salePrice := product.salePrice
            subtotal := item.quantity * (if product.onSale then product.salePrice else product.price)
            image := product.images.head? }
        let store' := saveProduct store { product with stock := product.stock - item.quantity }
        match processOrderItems store' rest with
        | (Except.ok items, s) => (Except.ok (done :: items), s)
        | (Except.error e, s) => (Except.error e, s)

/-- `createOrder(orderBody)`: process the items, then
`subtotal = Σ item.subtotal`,
`totalAmount = subtotal + (subtotal >= 500000 ? 0 : 30000) - (discount || 0)`,
and *afterwards* `shippingFee = totalAmount >= 500000 ? 0 : 30000`.
The initial status-history entry is added only when no history was given
and the status is not `checkout`.  `now` is the clock; `newId` the
document id assigned by the store. -/
def createOrder (now : Int) (newId : Nat) (store : ProductStore) (body : OrderBodyReq) :
    (Except ApiError Order) × ProductStore :=
  match processOrderItems store body.items with
  | (Except.error e, s) => (Except.error e, s)
  | (Except.ok items, s) =>
    let subtotal : Int := (items.map (fun it => it.subtotal)).foldl (· + ·) 0
    let discount : Int := body.discount.getD 0
    let totalAmount : Int := subtotal + (if 500000 ≤ subtotal then 0 else 30000) - discount
    let shippingFee : Int := if 500000 ≤ totalAmount then 0 else 30000
    let statusHistory : List StatusHistoryEntry :=
      match body.statusHistory with
      | some h => h
      | none =>
        if body.status ≠ "checkout" then
          [{ status := "pending", timestamp := now, note := "Đơn hàng đã được đặt" }]
        else []
    (Except.ok
      { id := newId
        customerId := body.customerId
        items := items
        subtotal := subtotal
        shippingFee := shippingFee
        discount := discount
        totalAmount := totalAmount
        status := body.status
        statusHistory := statusHistory
        paymentMethod := body.paymentMethod.getD "credit_card"
        paymentStatus := "pending"
        cancelledBy := none
        cancelReason := none
        checkoutExpiration := now + 15 * 60 * 1000
        paymentId := none
        createdAt := now }, s)

/-- Projection used to evaluate a created order's money fields
`(subtotal, shippingFee, discount, totalAmount)`. -/
def orderMoney : Except ApiError Order → Option (Int × Int × Int × Int)
  | Except.ok o => some (o.subtotal, o.shippingFee, o.discount, o.totalAmount)
  | Except.error _ => none

/-- Projection returning the `ErrCode` of a failed result. -/
def errCodeOf {α : Type} : Except ApiError α → Option ErrCode
  | Except.ok _ => none
  | Except.error e => some e.code

/-! ## Order status update (`updateOrderById`, review.service.js part 2 lines 386-440) -/

/-- Body of `PATCH /orders/:orderId` (route validation restricts `status`
to `shipping`/`delivered`/`cancelled` and allows `cancelReason`). -/
structure OrderUpdateBody where
  status : Option String
  cancelReason : Option String
  deriving DecidableEq, Repr

/-- The cancellation branch's stock restoration:
`for item of order.items: product.stock += item.quantity` (skipping
missing products). -/
def restoreStock (store : ProductStore) (items : List OrderItem) : ProductStore :=
  items.foldl
    (fun s it =>
      match findProduct s it.productId with
      | some p => saveProduct s { p with stock := p.stock + it.quantity }
      | none => s)
    store

/-- The delivery branch's sold-count update:
`for item of order.items: product.soldCount += item.quantity`. -/
def addSoldCount (store : ProductStore) (items : List OrderItem) : ProductStore :=
  items.foldl
    (fun s it =>
      match findProduct s it.productId with
      | some p => saveProduct s { p with soldCount := p.soldCount + it.quantity }
      | none => s)
    store

/-- `updateOrderById(orderId, updateBody)` applied to a found order.
When `updateBody.status` is present and differs from the current status
it appends a status-history entry and performs the stock / sold-count
side effect for `cancelled` / `delivered` / `shipping`; then
`Object.assign(order, updateBody)` copies the provided fields over the
order and it is saved.  No transition is ever rejected. -/
def updateOrderById (now : Int) (store : ProductStore) (order : Order)
    (u : OrderUpdateBody) : Order × ProductStore :=
  let step : Order × ProductStore :=
    match u.status with
    | none => (order, store)
    | some s =>
      if s = order.status then (order, store)
      else if s = "cancelled" then
        ({ order with
            cancelReason := some (u.cancelReason.getD "Khác")
            cancelledBy := some "admin"
            statusHistory := order.statusHistory ++
              [{ status := "cancelled", timestamp := now, note := "Đơn hàng đã bị huỷ" }] },
          restoreStock store order.items)
      else if s = "delivered" then
        ({ order with
            statusHistory := order.statusHistory ++
              [{ status := "delivered", timestamp := now, note := "Đơn hàng đã được giao" }] },
          addSoldCount store order.items)
      else if s = "shipping" then
        ({ order with
            statusHistory := order.statusHistory ++
              [{ status := "shipping", timestamp := now, note := "Đơn hàng đang được giao đến bạn" }] },
          store)
      else (order, store)
  let o1 := step.1
  let o2 : Order :=
    { o1 with
        status := u.status.getD o1.status
        cancelReason := match u.cancelReason with
          | some r => some r
          | none => o1.cancelReason }
  (o2, step.2)

/-! ## Bookings (`src/models/booking.model.js`, booking.service.js, booking.controller.js) -/

/-- The Booking document.  `bookingDate` is the stored `Date` taken at
local midnight of the booked day (the cancellation code calls
`setHours(h, m, 0, 0)` on it, which replaces the time-of-day, so only
the day part of the stored value matters). -/
structure Booking where
  id : Nat
  customerId : Nat
  serviceId : Nat
  bookingDate : Int
  timeSlot : String
  status : String
  cancelledBy : Option String
  cancellationReason : Option String
  totalAmount : Int
  paymentMethod : String
  paymentStatus : String
  paymentId : Option Nat
  createdAt : Int
  deriving DecidableEq, Repr

/-- Character-level worker for JS `String.prototype.split` with a
single-character separator (the code only splits on `'-'` and `':'`). -/
def splitCharAux (c : Char) : List Char → List (List Char)
  | [] => [[]]
  | ch :: rest =>
    let r := splitCharAux c rest
    if ch = c then [] :: r
    else (ch :: r.headD []) :: r.tail

/-- JS `s.split(c)` for a one-character separator. -/
def splitChar (c : Char) (s : String) : List String :=
  (splitCharAux c s.toList).map String.mk

/-- JS `Number(s)` restricted to the unsigned decimal strings the code
feeds it (hour/minute components): the parsed value, or 0 when the
string is not a plain digit string (the repository only stores
well-formed `"HH:MM-HH:MM"` slots, so that case never arises). -/
def jsNumberNat (s : String) : Nat :=
  if s.toList ≠ [] ∧ s.toList.all Char.isDigit then
    s.toList.foldl (fun n c => n * 10 + (c.toNat - 48)) 0
  else 0

/-- `timeSlot.split('-')[0].split(':').map(Number)`: the start hour and
minute of a `"HH:MM-HH:MM"` slot. -/
def timeSlotStartHM (timeSlot : String) : Nat × Nat :=
  let start := (splitChar '-' timeSlot).headD ""
  let parts := splitChar ':' start
  (jsNumberNat (parts.headD ""), jsNumberNat ((parts.drop 1).headD ""))

/-- `bookingDateTime.setHours(startHour, startMinute, 0, 0)`: the instant
(ms) at which the booked slot starts. -/
def bookingStartMs (b : Booking) : Int :=
  let hm := timeSlotStartHM b.timeSlot
  b.bookingDate + (hm.1 * 60 + hm.2) * 60 * 1000

/-- `cancelBooking(bookingId, cancellationReason, role)` from
booking.service.js (lines 292-335), applied to a found booking:
rejects `completed`/`cancelled` statuses; when `role === 'user'` also
rejects if the current time is past 12 hours before the slot start;
otherwise cancels, recording `cancelledBy` as `customer` exactly when
the role is `'user'`. -/
def cancelBookingService (now : Int) (booking : Booking)
    (cancellationReason : Option String) (role : String) : Except ApiError Booking :=
  if booking.status = "completed" ∨ booking.status = "cancelled" then
    Except.error ⟨ErrCode.badRequest, "Booking cannot be cancelled"⟩
  else if role = "user" ∧ now > bookingStartMs booking - 12 * 60 * 60 * 1000 then
    Except.error ⟨ErrCode.badRequest,
      "Bookings can only be cancelled at least 12 hours before the appointment time"⟩
  else
    Except.ok
      { booking with
          status := "cancelled"
          cancellationReason := some (cancellationReason.getD "Khác")
          cancelledBy := some (if role = "user" then "customer" else "admin") }

/-- The HTTP layer `cancelBooking` (booking.controller.js lines 122-152):
looks the booking up, checks ownership for `user`-role callers, lets a
user cancel only `checkout`/`booked` bookings, short-circuits `checkout`
with a "waiting for payment" message (`Except.ok none`), and otherwise
calls the service passing `cancelledBy ∈ {customer, admin}` — not the
caller's role — as the service's `role` argument. -/
def cancelBookingController (now : Int) (bookings : List Booking) (bookingId : Nat)
    (userId : Nat) (userRole : String) (reqCancellationReason : Option String) :
    Except ApiError (Option Booking) :=
  match bookings.find? (fun b => b.id = bookingId) with
  | none => Except.error ⟨ErrCode.notFound, "Booking not found"⟩
  | some booking =>
    if userRole = "user" ∧ booking.customerId ≠ userId then
      Except.error ⟨ErrCode.forbidden, "Access denied"⟩
    else if userRole = "user" ∧ booking.status ≠ "checkout" ∧ booking.status ≠ "booked" then
      Except.error ⟨ErrCode.badRequest, "Only booked bookings can be cancelled"⟩
    else if booking.status = "checkout" then
      Except.ok none
    else
      let cancelledBy := if userRole = "user" then "customer" else "admin"
      let cancelReason := reqCancellationReason.getD "Khác"
      (cancelBookingService now booking (some cancelReason) cancelledBy).map some

/-! ## Payments (`src/models/payment.model.js`, auth.service.js part 2) -/

/-- The Payment document (fields used by the coordinator and sweeper). -/
structure Payment where
  id : Nat
  paymentNumber : String
  targetType : String
  targetId : Nat
  customerId : Nat
  amount : Int
  clientSecret : Option String
  status : String
  deriving DecidableEq, Repr

/-- The persisted collections shared by the payment coordinator and the
expiration sweeper. -/
structure Db where
  bookings : List Booking
  orders : List Order
  payments : List Payment
  deriving DecidableEq, Repr

/-- `Payment.findOne({clientSecret})`. -/
def findPaymentByClientSecret (db : Db) (clientSecret : String) : Option Payment :=
  db.payments.find? (fun p => p.clientSecret = some clientSecret)

/-- `payment.save()` inside a `Db`. -/
def savePayment (db : Db) (p : Payment) : Db :=
  { db with payments := db.payments.map (fun q => if q.id = p.id then p else q) }

/-- `Order.findById` inside a `Db`. -/
def dbFindOrder (db : Db) (oid : Nat) : Option Order :=
  db.orders.find? (fun o => o.id = oid)

/-- `order.save()` inside a `Db`. -/
def dbSaveOrder (db : Db) (o : Order) : Db :=
  { db with orders := db.orders.map (fun q => if q.id = o.id then o else q) }

/-- `Booking.findById` inside a `Db`. -/
def dbFindBooking (db : Db) (bid : Nat) : Option Booking :=
  db.bookings.find? (fun b => b.id = bid)

/-- `booking.save()` inside a `Db`. -/
def dbSaveBooking (db : Db) (b : Booking) : Db :=
  { db with bookings := db.bookings.map (fun q => if q.id = b.id then b else q) }

/-- `Payment.findById` inside a `Db`. -/
def dbFindPayment (db : Db) (pid : Nat) : Option Payment :=
  db.payments.find? (fun p => p.id = pid)

/-- `confirmPayment(clientSecret, userId)` (auth.service.js part 2 lines
424-464): resolve the payment by client secret (`NotFound` if absent,
`Forbidden` unless owned by `userId`), set it `completed`, then — when
the target still exists — set the target's `paymentStatus` to `paid`
and advance a `checkout` order to `pending` or a `checkout` booking to
`booked`; a missing target is silently skipped. -/
def confirmPayment (clientSecret : String) (userId : Nat) (db : Db) :
    (Except ApiError Payment) × Db :=
  match findPaymentByClientSecret db clientSecret with
  | none => (Except.error ⟨ErrCode.notFound, "Payment not found"⟩, db)
  | some payment =>
    if payment.customerId ≠ userId then
      (Except.error ⟨ErrCode.forbidden, "Access denied"⟩, db)
    else
      let payment' := { payment with status := "completed" }
      let db1 := savePayment db payment'
      if payment.targetType = "order" then
        match dbFindOrder db1 payment.targetId with
        | some order =>
          (Except.ok payment',
            dbSaveOrder db1
              { order with
                  paymentStatus := "paid"
                  status := if order.status = "checkout" then "pending" else order.status })
        | none => (Except.ok payment', db1)
      else if payment.targetType = "booking" then
        match dbFindBooking db1 payment.targetId with
        | some booking =>
          (Except.ok payment',
            dbSaveBooking db1
              { booking with
                  paymentStatus := "paid"
                  status := if booking.status = "checkout" then "booked" else booking.status })
        | none => (Except.ok payment', db1)
      else (Except.ok payment', db1)

/-- `cancelPayment(clientSecret, userId)` (auth.service.js part 2 lines
472-501): same resolution and ownership checks, sets the payment
`failed`, sets the target's `paymentStatus` to `failed` without touching
its lifecycle `status`; a missing target is silently skipped. -/
def cancelPayment (clientSecret : String) (userId : Nat) (db : Db) :
    (Except ApiError Unit) × Db :=
  match findPaymentByClientSecret db clientSecret with
  | none => (Except.error ⟨ErrCode.notFound, "Payment not found"⟩, db)
  | some payment =>
    if payment.customerId ≠ userId then
      (Except.error ⟨ErrCode.forbidden, "Access denied"⟩, db)
    else
      let db1 := savePayment db { payment with status := "failed" }
      if payment.targetType = "order" then
        match dbFindOrder db1 payment.targetId with
        | some order => (Except.ok (), dbSaveOrder db1 { order with paymentStatus := "failed" })
        | none => (Except.ok (), db1)
      else if payment.targetType = "booking" then
        match dbFindBooking db1 payment.targetId with
        | some booking => (Except.ok (), dbSaveBooking db1 { booking with paymentStatus := "failed" })
        | none => (Except.ok (), db1)
      else (Except.ok (), db1)

/-! ## Expiration sweeper (booking.service.js lines 511-526; cron job) -/

/-- One iteration of `deleteExpiredBookings`'s loop over the found list:
`Payment.deleteOne({_id: booking.paymentId})` when a payment is linked,
then `Booking.deleteOne({_id: booking._id})` (`deleteOne` on the unique
`_id` removes exactly the matching documents). -/
def sweepBookingStep (s : Db) (b : Booking) : Db :=
  let payments :=
    match b.paymentId with
    | some pid => s.payments.filter (fun p => decide (p.id ≠ pid))
    | none => s.payments
  { s with
      payments := payments
      bookings := s.bookings.filter (fun b2 => decide (b2.id ≠ b.id)) }

/-- The `Booking.find({status: 'checkout', createdAt: {$lt: now - 5min}})`
query of `deleteExpiredBookings`. -/
def expiredCheckoutBookings (now : Int) (st : Db) : List Booking :=
  st.bookings.filter
    (fun b => decide (b.status = "checkout" ∧ b.createdAt < now - 5 * 60 * 1000))

/-- `deleteExpiredBookings()`: find every booking still in `checkout`
created more than 5 minutes ago, then delete each (and its linked
payment). -/
def deleteExpiredBookings (now : Int) (st : Db) : Db :=
  (expiredCheckoutBookings now st).foldl sweepBookingStep st

/-- One deletion step of the order sweeper: the linked payment (when
present), then the order itself. -/
def sweepOrderStep (s : Db) (o : Order) : Db :=
  let payments :=
    match o.paymentId with
    | some pid => s.payments.filter (fun p => decide (p.id ≠ pid))
    | none => s.payments
  { s with
      payments := payments
      orders := s.orders.filter (fun o2 => decide (o2.id ≠ o.id)) }

/-- Modelled from the spec: `deleteExpiredOrders` lives in
`src/services/order.service.js`, which is referenced by the cron job in
the validations file but is not part of the repository snapshot.  Per the
spec (§4.6, §8) it finds all Orders still in `checkout` whose
`checkoutExpiration` (creation + 15 minutes) has passed, deletes each
one's linked Payment record if present, then deletes the Order itself. -/
def expiredCheckoutOrders (now : Int) (st : Db) : List Order :=
  st.orders.filter
    (fun o => decide (o.status = "checkout" ∧ o.checkoutExpiration < now))

/-- Modelled from the spec (see `expiredCheckoutOrders`): the deletion
loop of the order sweeper, mirroring `deleteExpiredBookings`. -/
def deleteExpiredOrders (now : Int) (st : Db) : Db :=
  (expiredCheckoutOrders now st).foldl sweepOrderStep st

/-- One run of the cron job (`cron.schedule('* * * * *', ...)`): the
booking sweep followed by the order sweep. -/
def sweeperRun (now : Int) (st : Db) : Db :=
  deleteExpiredOrders now (deleteExpiredBookings now st)

/-! ## String helpers shared by the slot calculator and the id hooks -/

/-- JS `String.prototype.padStart(n, c)`. -/
def padStart (s : String) (n : Nat) (c : Char) : String :=
  String.mk (List.replicate (n - s.length) c ++ s.toList)

/-- JS `String.prototype.toUpperCase()` (ASCII, which is all the id
hooks feed it). -/
def jsToUpperCase (s : String) : String :=
  String.mk (s.toList.map Char.toUpper)

/-! ## Slot calculator (service.service.js lines 403-480) -/

/-- A `{startTime, endTime, availableSpots}` slot. -/
structure Timeslot where
  startTime : String
  endTime : String
  availableSpots : Int
  deriving DecidableEq, Repr

/-- A reservation interval taken from an existing booking's `timeSlot`. -/
structure BookedSlot where
  startTime : String
  endTime : String
  deriving DecidableEq, Repr

/-- `timeToMinutes("HH:MM")` = hours*60 + minutes. -/
def timeToMinutes (timeStr : String) : Int :=
  let parts := splitChar ':' timeStr
  (jsNumberNat (parts.headD "") : Int) * 60 + (jsNumberNat ((parts.drop 1).headD "") : Int)

/-- Render a (non-negative) minute-of-day back to `"HH:MM"` with
2-digit zero padding, as the string interpolation in
`generateTimeslots` does. -/
def minutesToTimeStr (m : Int) : String :=
  padStart (toString (m.toNat / 60)) 2 '0' ++ ":" ++ padStart (toString (m.toNat % 60)) 2 '0'

/-- Number of iterations of
`for (start = openMinutes; start <= closeMinutes - serviceDuration; start += slotDuration)`.
The JS loop diverges for a non-positive step; the schema only allows
steps in {10,...,120}, and the model yields no slots in that degenerate
case. -/
def slotIterations (openMinutes bound slotDuration : Int) : Nat :=
  if openMinutes ≤ bound ∧ 0 < slotDuration then
    ((bound - openMinutes) / slotDuration).toNat + 1
  else 0

/-- `generateTimeslots(openTime, closeTime, slotDuration, serviceDuration)`:
candidate windows of length `serviceDuration` stepped by `slotDuration`
from `openMinutes` to `closeMinutes - serviceDuration` inclusive, each
with `availableSpots: 0` (set later). -/
def generateTimeslots (openTime closeTime : String) (slotDuration serviceDuration : Int) :
    List Timeslot :=
  let openMinutes := timeToMinutes openTime
  let closeMinutes := timeToMinutes closeTime
  let bound := closeMinutes - serviceDuration
  (List.range (slotIterations openMinutes bound slotDuration)).map
    (fun i =>
      let start := openMinutes + i * slotDuration
      { startTime := minutesToTimeStr start
        endTime := minutesToTimeStr (start + serviceDuration)
        availableSpots := 0 })

/-- The inner `allSlots.forEach` of `filterAvailableSlots` for one booked
interval: decrement `availableSpots` (never below 0, `Math.max(0, ·-1)`)
on every slot satisfying the three-case overlap test. -/
def applyBookedSlot (slots : List Timeslot) (booked : BookedSlot) : List Timeslot :=
  let bookedStart := timeToMinutes booked.startTime
  let bookedEnd := timeToMinutes booked.endTime
  slots.map
    (fun slot =>
      let slotStart := timeToMinutes slot.startTime
      let slotEnd := timeToMinutes slot.endTime
      if (slotStart ≤ bookedStart ∧ bookedStart < slotEnd) ∨
         (slotStart < bookedEnd ∧ bookedEnd ≤ slotEnd) ∨
         (bookedStart ≤ slotStart ∧ slotEnd ≤ bookedEnd) then
        { slot with availableSpots := max 0 (slot.availableSpots - 1) }
      else slot)

/-- `filterAvailableSlots(allSlots, bookedSlots, capacity)`: initialize
every slot's `availableSpots` to `capacity`, apply every booked
interval, and keep only slots with `availableSpots > 0`. -/
def filterAvailableSlots (allSlots : List Timeslot) (bookedSlots : List BookedSlot)
    (capacity : Int) : List Timeslot :=
  let withCapacity := allSlots.map (fun slot => { slot with availableSpots := capacity })
  let reduced := bookedSlots.foldl applyBookedSlot withCapacity
  reduced.filter (fun slot => decide (0 < slot.availableSpots))

/-! ## Identifier-generating pre-save hooks -/

/-- `orderSchema.pre('save')`: `ORD-` plus the current document count + 1,
zero-padded to 6 digits. -/
def genOrderNumber (count : Nat) : String :=
  "ORD-" ++ padStart (toString (count + 1)) 6 '0'

/-- `bookingSchema.pre('save')`: `BKN-` plus the current document count
+ 1, zero-padded to 6 digits. -/
def genBookingNumber (count : Nat) : String :=
  "BKN-" ++ padStart (toString (count + 1)) 6 '0'

/-- `uuidv4().split('-')[0].toUpperCase()`: the first group of a v4 UUID
string, uppercased. -/
def uuidFirstGroupUpper (uuid : String) : String :=
  jsToUpperCase ((splitChar '-' uuid).headD "")

/-- `paymentSchema.pre('save')` (payment.model.js lines 48-58):
`PM_` + `YYYYMMDD` + `HHMMSS` + the UUID's first group uppercased.
`dateStr`/`timeStr` are the already-formatted date and time components
(produced in JS from `toISOString`/`toTimeString`). -/
def genPaymentNumber (dateStr timeStr uuid : String) : String :=
  "PM_" ++ dateStr ++ timeStr ++ uuidFirstGroupUpper uuid

/-! ## Service reviews and rating aggregation (service.service.js lines 522-578) -/

/-- The fields of a User document read by review creation. -/
structure User where
  id : Nat
  fullname : String
  avatar : Option String
  deriving DecidableEq, Repr

/-- A Review document as created by the service-review path. -/
structure Review where
  id : Nat
  targetType : String
  targetId : Nat
  sourceType : String
  sourceId : Nat
  customerId : Nat
  rating : Nat
  content : String
  photos : List String
  customerName : String
  customerAvatar : Option String
  deriving DecidableEq, Repr

/-- `Math.round(x)` on a JS number: round half toward +∞. -/
def jsRound (x : ℚ) : Int :=
  Int.floor (x + 1 / 2)

/-- A service's embedded `ratings` object. -/
structure Ratings where
  count : Nat
  totalStars : Nat
  average : ℚ
  deriving DecidableEq, Repr

/-- The fields of a Service document used by review creation. -/
structure Service where
  id : Nat
  name : String
  price : Int
  salePrice : Int
  onSale : Bool
  capacity : Nat
  duration : Int
  usageCount : Nat
  ratings : Ratings
  recentReviews : List Nat
  deriving DecidableEq, Repr

/-- The collections read and written by service-review creation. -/
structure ReviewDb where
  services : List Service
  reviews : List Review
  users : List User
  bookings : List Booking
  deriving DecidableEq, Repr

/-- The body of a service-review request. -/
structure ReviewBody where
  sourceId : Nat
  customerId : Nat
  rating : Nat
  content : String
  photos : List String
  deriving DecidableEq, Repr

/-- `createReview(serviceId, reviewBody)` for services: service lookup
(`NotFound`), duplicate-review check on `{targetId, sourceId,
customerId}` (`BadRequest`), user lookup (`NotFound`), booking lookup
(`NotFound`), ownership (`Forbidden`), service match (`Forbidden`),
completed-status check (`Forbidden`); on success creates the review,
pushes its id onto `recentReviews`, increments `ratings.count`, adds the
rating to `ratings.totalStars`, and sets
`average = Math.round((totalStars / count) * 10) / 10`. -/
def createServiceReview (newId : Nat) (serviceId : Nat) (body : ReviewBody)
    (st : ReviewDb) : (Except ApiError Review) × ReviewDb :=
  match st.services.find? (fun s => s.id = serviceId) with
  | none => (Except.error ⟨ErrCode.notFound, "Service not found"⟩, st)
  | some service =>
    match st.reviews.find? (fun r =>
        r.targetId = serviceId ∧ r.sourceId = body.sourceId ∧ r.customerId = body.customerId) with
    | some _ => (Except.error ⟨ErrCode.badRequest, "You have already reviewed this service"⟩, st)
    | none =>
      match st.users.find? (fun u => u.id = body.customerId) with
      | none => (Except.error ⟨ErrCode.notFound, "User not found"⟩, st)
      | some user =>
        match st.bookings.find? (fun b => b.id = body.sourceId) with
        | none => (Except.error ⟨ErrCode.notFound, "Booking not found"⟩, st)
        | some booking =>
          if booking.customerId ≠ body.customerId then
            (Except.error ⟨ErrCode.forbidden, "You are not authorized to review this booking"⟩, st)
          else if booking.serviceId ≠ serviceId then
            (Except.error ⟨ErrCode.forbidden, "This booking does not belong to this service"⟩, st)
          else if booking.status ≠ "completed" then
            (Except.error ⟨ErrCode.forbidden, "You can only review completed bookings"⟩, st)
          else
            let review : Review :=
              { id := newId
                targetType := "service"
                targetId := serviceId
                sourceType := "booking"
                sourceId := body.sourceId
                customerId := body.customerId
                rating := body.rating
                content := body.content
                photos := body.photos
                customerName := user.fullname
                customerAvatar := user.avatar }
            let count' := service.ratings.count + 1
            let totalStars' := service.ratings.totalStars + body.rating
            let service' : Service :=
              { service with
                  recentReviews := service.recentReviews ++ [newId]
                  ratings :=
                    { count := count'
                      totalStars := totalStars'
                      average := (jsRound (((totalStars' : ℚ) / (count' : ℚ)) * 10) : ℚ) / 10 } }
            (Except.ok review,
              { st with
                  reviews := st.reviews ++ [review]
                  services := st.services.map (fun s => if s.id = serviceId then service' else s) })

/-! ## General lemmas about the record-store primitives -/

/-- A record returned by an id lookup carries the looked-up id. -/
theorem findProduct_id {s : ProductStore} {pid : Nat} {p : Product}
    (h : findProduct s pid = some p) : p.id = pid := by
  have := List.find?_some h
  simpa using this

/-- Saving a record whose id differs from `pid` does not change the
result of looking `pid` up. -/
theorem findProduct_save_ne {s : ProductStore} {q : Product} {pid : Nat}
    (h : q.id ≠ pid) : findProduct (saveProduct s q) pid = findProduct s pid := by
  unfold findProduct saveProduct
  rw [List.find?_map]
  have hpred : ((fun p => decide (p.id = pid)) ∘ fun q1 => if q1.id = q.id then q else q1) =
      fun p : Product => decide (p.id = pid) := by
    funext x
    by_cases hx : x.id = q.id <;> simp [Function.comp, hx, h]
  rw [hpred]
  cases hfind : List.find? (fun p : Product => decide (p.id = pid)) s with
  | none => simp
  | some e =>
    have he : e.id = pid := by simpa using List.find?_some hfind
    have hne : ¬ e.id = q.id := by
      rw [he]; intro hc; exact h hc.symm
    simp [hne]

/-- `processOrderItems` touches only the products named by its item
list. -/
theorem processOrderItems_untouched (store : ProductStore) (items : List OrderItemReq)
    (pid : Nat) (h : ∀ i ∈ items, i.productId ≠ pid) :
    findProduct (processOrderItems store items).2 pid = findProduct store pid := by
  induction items generalizing store with
  | nil => rfl
  | cons x xs ih =>
    have hx : x.productId ≠ pid := h x (List.mem_cons_self x xs)
    have hxs : ∀ i ∈ xs, i.productId ≠ pid := fun i hi => h i (List.mem_cons_of_mem x hi)
    show findProduct (processOrderItems store (x :: xs)).2 pid = findProduct store pid
    unfold processOrderItems
    cases hfind : findProduct store x.productId with
    | none => simp
    | some product =>
      by_cases hs : product.stock < x.quantity
      · simp [hs]
      · have hqid : product.id ≠ pid := by
          rw [findProduct_id hfind]; exact hx
        have hsave := @findProduct_save_ne store
          { product with stock := product.stock - x.quantity } pid hqid
        have hrec := ih (saveProduct store { product with stock := product.stock - x.quantity }) hxs
        simp only [if_neg hs]
        cases hrest : processOrderItems
            (saveProduct store { product with stock := product.stock - x.quantity }) xs with
        | mk r s' =>
          cases r with
          | ok its => simpa [hrest] using hrec.trans hsave
          | error e => simpa [hrest] using hrec.trans hsave

/-- Splitting the `createOrder` item loop at any point: the loop over
`a ++ b` runs `a` first and continues with `b` from the mutated store,
propagating the first failure together with the store reached so far. -/
theorem processOrderItems_append (store : ProductStore) (a b : List OrderItemReq) :
    processOrderItems store (a ++ b) =
      match processOrderItems store a with
      | (Except.ok items, s) =>
        (match processOrderItems s b with
         | (Except.ok more, s') => (Except.ok (items ++ more), s')
         | (Except.error e, s') => (Except.error e, s'))
      | (Except.error e, s) => (Except.error e, s) := by
  induction a generalizing store with
  | nil =>
    show processOrderItems store b = _
    cases hb : processOrderItems store b with
    | mk r s' => cases r <;> simp [processOrderItems, hb]
  | cons x xs ih =>
    show processOrderItems store (x :: (xs ++ b)) = _
    conv_lhs => rw [processOrderItems]
    conv_rhs => rw [processOrderItems]
    cases hfind : findProduct store x.productId with
    | none => simp
    | some product =>
      by_cases hs : product.stock < x.quantity
      · simp [hs]
      · simp only [if_neg hs]
        rw [ih]
        cases h1 : processOrderItems
            (saveProduct store { product with stock := product.stock - x.quantity }) xs with
        | mk r1 s1 =>
          cases r1 with
          | error e => simp
          | ok its =>
            cases h2 : processOrderItems s1 b with
            | mk r2 s2 => cases r2 <;> simp [h2]

/-! ## C1 — totalAmount / shippingFee coherence of `createOrder` -/

/-- A product store with a single product priced 480 000 and ample
stock, used to exhibit the shipping-fee mismatch. -/
def feeStore : ProductStore :=
  [{ id := 1, name := "Premium dog food", price := 480000, salePrice := 0,
     onSale := false, stock := 10, soldCount := 0, images := [] }]

/-- An order request for one unit of that product, card checkout, no
discount. -/
def feeBody : OrderBodyReq :=
  { customerId := 7, items := [{ productId := 1, quantity := 1 }],
    status := "checkout", discount := none, statusHistory := none,
    paymentMethod := some "credit_card" }

/-- C1: `createOrder` adds the 30 000 fee into `totalAmount` because
`subtotal = 480000 < 500000`, but then stores `shippingFee = 0` because
`totalAmount = 510000 ≥ 500000`.  The persisted order therefore violates
`totalAmount = subtotal + shippingFee − discount`
(510000 ≠ 480000 + 0 − 0), refuting the claimed invariant. -/
theorem createOrder_totalAmount_shippingFee_incoherent :
    orderMoney (createOrder 0 1 feeStore feeBody).1 = some (480000, 0, 0, 510000) ∧
    ¬ (510000 : Int) = 480000 + 0 - 0 := by
  constructor
  · rfl
  · decide

/-! ## C2 — no rollback of stock on order-creation failure -/

/-- Store for the rollback counterexample: product 1 has stock 5;
product 2 does not exist. -/
def rollbackStore : ProductStore :=
  [{ id := 1, name := "Cat litter", price := 100000, salePrice := 0,
     onSale := false, stock := 5, soldCount := 0, images := [] }]

/-- An order requesting 2 units of the existing product 1 followed by
1 unit of the missing product 2. -/
def rollbackBody : OrderBodyReq :=
  { customerId := 7,
    items := [{ productId := 1, quantity := 2 }, { productId := 2, quantity := 1 }],
    status := "checkout", discount := none, statusHistory := none,
    paymentMethod := some "credit_card" }

/-- C2 counterexample: the order fails with `NotFound` on the missing
second product, yet product 1's stock — 5 before the call — is left at 3
in the resulting store: the decrement applied for the first line item is
not rolled back. -/
theorem createOrder_failure_leaves_stock_decremented :
    errCodeOf (createOrder 0 1 rollbackStore rollbackBody).1 = some ErrCode.notFound ∧
    (findProduct rollbackStore 1).map Product.stock = some 5 ∧
    (findProduct (createOrder 0 1 rollbackStore rollbackBody).2 1).map Product.stock = some 3 := by
  refine ⟨rfl, rfl, rfl⟩

/-- C2 (amended): when the item list splits as `a ++ x :: b` and the
prefix `a` processes successfully into store `s1`, a missing product for
`x` fails the whole call with `NotFound` — and an understocked one with
`BadRequest` — but the resulting store is `s1`: the decrements already
applied for `a` persist (no rollback), while products not named in `a`
are untouched. -/
theorem createOrder_failure_no_rollback
    (now : Int) (newId : Nat) (store s1 : ProductStore)
    (a : List OrderItemReq) (x : OrderItemReq) (b : List OrderItemReq)
    (body : OrderBodyReq) (its : List OrderItem)
    (hitems : body.items = a ++ x :: b)
    (hpre : processOrderItems store a = (Except.ok its, s1)) :
    (findProduct s1 x.productId = none →
      createOrder now newId store body =
        (Except.error ⟨ErrCode.notFound, "Product not found"⟩, s1)) ∧
    (∀ p, findProduct s1 x.productId = some p → p.stock < x.quantity →
      createOrder now newId store body =
        (Except.error ⟨ErrCode.badRequest, "Not enough stock"⟩, s1)) ∧
    (∀ pid, (∀ i ∈ a, i.productId ≠ pid) → findProduct s1 pid = findProduct store pid) := by
  have hfail : ∀ e : ApiError, processOrderItems s1 (x :: b) = (Except.error e, s1) →
      createOrder now newId store body = (Except.error e, s1) := by
    intro e he
    unfold createOrder
    rw [hitems, processOrderItems_append, hpre]
    simp [he]
  refine ⟨?_, ?_, ?_⟩
  · intro hnone
    apply hfail
    unfold processOrderItems
    rw [hnone]
  · intro p hfind hstock
    apply hfail
    unfold processOrderItems
    rw [hfind]
    simp [if_pos hstock]
  · intro pid hnot
    have := processOrderItems_untouched store a pid hnot
    rw [hpre] at this
    exact this

/-- Witness for the amended C2 theorem at a concrete input: prefix
`[2 units of product 1]` succeeds (stock 5 → 3), then the missing
product 2 fails the call with `NotFound`, leaving the store with
product 1 at stock 3. -/
theorem createOrder_failure_no_rollback_witness :
    createOrder 0 1 rollbackStore rollbackBody =
      (Except.error ⟨ErrCode.notFound, "Product not found"⟩,
        [{ id := 1, name := "Cat litter", price := 100000, salePrice := 0,
           onSale := false, stock := 3, soldCount := 0, images := [] }]) :=
  (createOrder_failure_no_rollback 0 1 rollbackStore
      [{ id := 1, name := "Cat litter", price := 100000, salePrice := 0,
         onSale := false, stock := 3, soldCount := 0, images := [] }]
      [{ productId := 1, quantity := 2 }] { productId := 2, quantity := 1 } []
      rollbackBody
      [{ productId := 1, quantity := 2, name := "Cat litter", price := 100000,
         onSale := false, salePrice := 0, subtotal := 200000, image := none }]
      rfl rfl).1 rfl

/-! ## C3 — customer cancellation lead time through the HTTP layer -/

/-- A booking in status `booked` owned by customer 42, slot starting at
10:00 of its booking day (instant 36 000 000 ms for a day start of 0). -/
def lateBooking : Booking :=
  { id := 1, customerId := 42, serviceId := 3, bookingDate := 0,
    timeSlot := "10:00-10:30", status := "booked", cancelledBy := none,
    cancellationReason := none, totalAmount := 200000, paymentMethod := "cash",
    paymentStatus := "pending", paymentId := none, createdAt := 0 }

/-- C3: at 09:00 of the booking day — one hour before the slot, well
inside the 12-hour window — a cancellation by the owning customer (role
`user`) through the controller *succeeds*: the controller passes
`cancelledBy = "customer"` as the service's `role` argument, so the
service's `role === 'user'` lead-time check never fires (and the booking
is even recorded as cancelled by `admin`).  The service itself, called
with the role `"user"` as the spec intends, rejects the same
cancellation with `BadRequest`. -/
theorem customerLateCancellationNotRejected :
    (32400000 : Int) > bookingStartMs lateBooking - 12 * 60 * 60 * 1000 ∧
    cancelBookingController 32400000 [lateBooking] 1 42 "user" none =
      Except.ok (some { lateBooking with
        status := "cancelled", cancellationReason := some "Khác",
        cancelledBy := some "admin" }) ∧
    cancelBookingService 32400000 lateBooking (some "Khác") "user" =
      Except.error ⟨ErrCode.badRequest,
        "Bookings can only be cancelled at least 12 hours before the appointment time"⟩ := by
  refine ⟨by decide, rfl, rfl⟩

/-! ## C4 — `updateOrderById` does not enforce the order state machine -/

/-- An order already in the terminal status `delivered` (no line items,
so the counterexample needs no product store). -/
def deliveredOrder : Order :=
  { id := 5, customerId := 7, items := [], subtotal := 100000,
    shippingFee := 30000, discount := 0, totalAmount := 130000,
    status := "delivered",
    statusHistory := [{ status := "pending", timestamp := 0, note := "Đơn hàng đã được đặt" }],
    paymentMethod := "cash", paymentStatus := "paid", cancelledBy := none,
    cancelReason := none, checkoutExpiration := 900000, paymentId := none,
    createdAt := 0 }

/-- C4 counterexample: asking `updateOrderById` to move a `delivered`
order to `shipping` — a transition outside the enumerated state
machine, out of a terminal state — is applied without any error: the
status becomes `shipping` and a history entry is appended. -/
theorem updateOrder_out_of_delivered_applied :
    (updateOrderById 0 [] deliveredOrder { status := some "shipping", cancelReason := none }).1.status
      = "shipping" ∧
    deliveredOrder.status = "delivered" ∧
    (updateOrderById 0 [] deliveredOrder { status := some "shipping", cancelReason := none }).1.statusHistory
      ≠ deliveredOrder.statusHistory := by
  refine ⟨rfl, rfl, by decide⟩

/-- C4 (amended): `updateOrderById` validates no transition at all:
whatever status the update body carries becomes the order's status, and
a history entry is appended exactly when the new status differs from the
old and is one of `cancelled` / `delivered` / `shipping` (the values the
route validation admits). -/
theorem updateOrderById_applies_any_status
    (now : Int) (store : ProductStore) (order : Order) (u : OrderUpdateBody) (s : String)
    (hs : u.status = some s) :
    (updateOrderById now store order u).1.status = s ∧
    (updateOrderById now store order u).1.statusHistory =
      order.statusHistory ++
        (if s = order.status then []
         else if s = "cancelled" then
           [{ status := "cancelled", timestamp := now, note := "Đơn hàng đã bị huỷ" }]
         else if s = "delivered" then
           [{ status := "delivered", timestamp := now, note := "Đơn hàng đã được giao" }]
         else if s = "shipping" then
           [{ status := "shipping", timestamp := now, note := "Đơn hàng đang được giao đến bạn" }]
         else []) := by
  unfold updateOrderById
  rw [hs]
  by_cases h1 : s = order.status
  · simp [h1]
  · by_cases h2 : s = "cancelled"
    · subst h2; simp [h1]
    · by_cases h3 : s = "delivered"
      · subst h3; simp [h1, h2]
      · by_cases h4 : s = "shipping"
        · subst h4; simp [h1, h2, h3]
        · simp [h1, h2, h3, h4]

/-- Witness for the amended C4 theorem: the `delivered → shipping`
request is applied. -/
theorem updateOrderById_applies_any_status_witness :
    (updateOrderById 0 [] deliveredOrder { status := some "shipping", cancelReason := none }).1.status
      = "shipping" :=
  (updateOrderById_applies_any_status 0 [] deliveredOrder
    { status := some "shipping", cancelReason := none } "shipping" rfl).1

/-! ## C5 — the expiration sweeper -/

/-- A payment survives the deletion step for booking `b` iff `b` does
not link it. -/
def bookingKeepsPayment (b : Booking) (p : Payment) : Bool :=
  match b.paymentId with
  | some pid => decide (p.id ≠ pid)
  | none => true

/-- A payment survives the deletion step for order `o` iff `o` does not
link it. -/
def orderKeepsPayment (o : Order) (p : Payment) : Bool :=
  match o.paymentId with
  | some pid => decide (p.id ≠ pid)
  | none => true

theorem bookingKeepsPayment_iff (b : Booking) (p : Payment) :
    bookingKeepsPayment b p = true ↔ b.paymentId ≠ some p.id := by
  unfold bookingKeepsPayment
  cases hb : b.paymentId with
  | none => simp
  | some pid =>
    show decide (p.id ≠ pid) = true ↔ some pid ≠ some p.id
    simp only [decide_eq_true_eq, ne_eq, Option.some.injEq]
    exact ⟨fun h hc => h hc.symm, fun h hc => h hc.symm⟩

theorem orderKeepsPayment_iff (o : Order) (p : Payment) :
    orderKeepsPayment o p = true ↔ o.paymentId ≠ some p.id := by
  unfold orderKeepsPayment
  cases ho : o.paymentId with
  | none => simp
  | some pid =>
    show decide (p.id ≠ pid) = true ↔ some pid ≠ some p.id
    simp only [decide_eq_true_eq, ne_eq, Option.some.injEq]
    exact ⟨fun h hc => h hc.symm, fun h hc => h hc.symm⟩

theorem sweepBookingStep_bookings (s : Db) (b : Booking) :
    (sweepBookingStep s b).bookings = s.bookings.filter (fun x => decide (x.id ≠ b.id)) := rfl

theorem sweepBookingStep_orders (s : Db) (b : Booking) :
    (sweepBookingStep s b).orders = s.orders := rfl

theorem sweepBookingStep_payments (s : Db) (b : Booking) :
    (sweepBookingStep s b).payments = s.payments.filter (fun p => bookingKeepsPayment b p) := by
  show (match b.paymentId with
      | some pid => s.payments.filter (fun p : Payment => decide (p.id ≠ pid))
      | none => s.payments) = _
  unfold bookingKeepsPayment
  cases hb : b.paymentId with
  | none => simp
  | some pid => rfl

theorem sweepOrderStep_orders (s : Db) (o : Order) :
    (sweepOrderStep s o).orders = s.orders.filter (fun x => decide (x.id ≠ o.id)) := rfl

theorem sweepOrderStep_bookings (s : Db) (o : Order) :
    (sweepOrderStep s o).bookings = s.bookings := rfl

theorem sweepOrderStep_payments (s : Db) (o : Order) :
    (sweepOrderStep s o).payments = s.payments.filter (fun p => orderKeepsPayment o p) := by
  show (match o.paymentId with
      | some pid => s.payments.filter (fun p : Payment => decide (p.id ≠ pid))
      | none => s.payments) = _
  unfold orderKeepsPayment
  cases ho : o.paymentId with
  | none => simp
  | some pid => rfl

/-- The loop of `deleteExpiredBookings` is a filter: it removes exactly
the bookings whose id occurs in the found list and the payments linked
from the found list, leaving orders alone. -/
theorem foldl_sweepBookingStep (found : List Booking) (st : Db) :
    (found.foldl sweepBookingStep st).bookings
        = st.bookings.filter (fun x => found.all (fun b => decide (x.id ≠ b.id))) ∧
    (found.foldl sweepBookingStep st).orders = st.orders ∧
    (found.foldl sweepBookingStep st).payments
        = st.payments.filter (fun p => found.all (fun b => bookingKeepsPayment b p)) := by
  induction found generalizing st with
  | nil => simp
  | cons b bs ih =>
    obtain ⟨h1, h2, h3⟩ := ih (sweepBookingStep st b)
    refine ⟨?_, ?_, ?_⟩
    · rw [List.foldl_cons, h1, sweepBookingStep_bookings, List.filter_filter]
      simp [List.all_cons, Bool.and_comm]
    · rw [List.foldl_cons, h2, sweepBookingStep_orders]
    · rw [List.foldl_cons, h3, sweepBookingStep_payments, List.filter_filter]
      simp [List.all_cons, Bool.and_comm]

/-- The loop of the order sweeper is a filter on the orders and the
linked payments, leaving bookings alone. -/
theorem foldl_sweepOrderStep (found : List Order) (st : Db) :
    (found.foldl sweepOrderStep st).orders
        = st.orders.filter (fun x => found.all (fun o => decide (x.id ≠ o.id))) ∧
    (found.foldl sweepOrderStep st).bookings = st.bookings ∧
    (found.foldl sweepOrderStep st).payments
        = st.payments.filter (fun p => found.all (fun o => orderKeepsPayment o p)) := by
  induction found generalizing st with
  | nil => simp
  | cons o os ih =>
    obtain ⟨h1, h2, h3⟩ := ih (sweepOrderStep st o)
    refine ⟨?_, ?_, ?_⟩
    · rw [List.foldl_cons, h1, sweepOrderStep_orders, List.filter_filter]
      simp [List.all_cons, Bool.and_comm]
    · rw [List.foldl_cons, h2, sweepOrderStep_bookings]
    · rw [List.foldl_cons, h3, sweepOrderStep_payments, List.filter_filter]
      simp [List.all_cons, Bool.and_comm]

/-- C5: one run of the sweeper deletes exactly the bookings still in
`checkout` created more than 5 minutes before the run and the orders
still in `checkout` whose `checkoutExpiration` has passed; every
payment linked from a deleted booking or order is deleted too; all
other bookings, orders and payments survive.  (Ids are assumed
pairwise distinct, as Mongo's unique `_id` guarantees.) -/
theorem sweeperRun_deletes_exactly_expired
    (now : Int) (st : Db)
    (hb : st.bookings.Pairwise (fun a b => a.id ≠ b.id))
    (ho : st.orders.Pairwise (fun a b => a.id ≠ b.id)) :
    (∀ b, b ∈ (sweeperRun now st).bookings ↔
        b ∈ st.bookings ∧ ¬(b.status = "checkout" ∧ b.createdAt < now - 5 * 60 * 1000)) ∧
    (∀ o, o ∈ (sweeperRun now st).orders ↔
        o ∈ st.orders ∧ ¬(o.status = "checkout" ∧ o.checkoutExpiration < now)) ∧
    (∀ p, p ∈ (sweeperRun now st).payments ↔
        p ∈ st.payments ∧
        (∀ b ∈ st.bookings, b.status = "checkout" ∧ b.createdAt < now - 5 * 60 * 1000 →
            b.paymentId ≠ some p.id) ∧
        (∀ o ∈ st.orders, o.status = "checkout" ∧ o.checkoutExpiration < now →
            o.paymentId ≠ some p.id)) := by
  have hsymB : Symmetric (fun a b : Booking => a.id ≠ b.id) :=
    fun x y h => fun e => h e.symm
  have hsymO : Symmetric (fun a b : Order => a.id ≠ b.id) :=
    fun x y h => fun e => h e.symm
  obtain ⟨hbB, hbO, hbP⟩ := foldl_sweepBookingStep (expiredCheckoutBookings now st) st
  have hst1B : (deleteExpiredBookings now st).bookings
      = st.bookings.filter
          (fun x => (expiredCheckoutBookings now st).all (fun b => decide (x.id ≠ b.id))) := hbB
  have hst1O : (deleteExpiredBookings now st).orders = st.orders := hbO
  have hst1P : (deleteExpiredBookings now st).payments
      = st.payments.filter
          (fun p => (expiredCheckoutBookings now st).all (fun b => bookingKeepsPayment b p)) := hbP
  obtain ⟨hoO, hoB, hoP⟩ :=
    foldl_sweepOrderStep (expiredCheckoutOrders now (deleteExpiredBookings now st))
      (deleteExpiredBookings now st)
  have hfoundO : expiredCheckoutOrders now (deleteExpiredBookings now st)
      = expiredCheckoutOrders now st := by
    unfold expiredCheckoutOrders
    rw [hst1O]
  refine ⟨?_, ?_, ?_⟩
  · intro b
    show b ∈ ((expiredCheckoutOrders now (deleteExpiredBookings now st)).foldl
        sweepOrderStep (deleteExpiredBookings now st)).bookings ↔ _
    rw [hoB, hst1B, List.mem_filter]
    constructor
    · rintro ⟨hmem, hall⟩
      refine ⟨hmem, ?_⟩
      intro hexp
      have hfound : b ∈ expiredCheckoutBookings now st :=
        List.mem_filter.mpr ⟨hmem, by simpa using hexp⟩
      have := List.all_eq_true.mp hall b hfound
      exact (of_decide_eq_true this) rfl
    · rintro ⟨hmem, hnexp⟩
      refine ⟨hmem, ?_⟩
      rw [List.all_eq_true]
      intro b' hb'
      rw [expiredCheckoutBookings, List.mem_filter] at hb'
      obtain ⟨hb'mem, hb'exp⟩ := hb'
      rw [decide_eq_true_eq]
      by_cases heq : b' = b
      · subst heq
        exact absurd (of_decide_eq_true hb'exp) hnexp
      · exact hb.forall hsymB hmem hb'mem (fun e => heq e.symm)
  · intro o
    show o ∈ ((expiredCheckoutOrders now (deleteExpiredBookings now st)).foldl
        sweepOrderStep (deleteExpiredBookings now st)).orders ↔ _
    rw [hoO, hfoundO, hst1O, List.mem_filter]
    constructor
    · rintro ⟨hmem, hall⟩
      refine ⟨hmem, ?_⟩
      intro hexp
      have hfound : o ∈ expiredCheckoutOrders now st :=
        List.mem_filter.mpr ⟨hmem, by simpa using hexp⟩
      have := List.all_eq_true.mp hall o hfound
      exact (of_decide_eq_true this) rfl
    · rintro ⟨hmem, hnexp⟩
      refine ⟨hmem, ?_⟩
      rw [List.all_eq_true]
      intro o' ho'
      rw [expiredCheckoutOrders, List.mem_filter] at ho'
      obtain ⟨ho'mem, ho'exp⟩ := ho'
      rw [decide_eq_true_eq]
      by_cases heq : o' = o
      · subst heq
        exact absurd (of_decide_eq_true ho'exp) hnexp
      · exact ho.forall hsymO hmem ho'mem (fun e => heq e.symm)
  · intro p
    show p ∈ ((expiredCheckoutOrders now (deleteExpiredBookings now st)).foldl
        sweepOrderStep (deleteExpiredBookings now st)).payments ↔ _
    rw [hoP, hfoundO, hst1P]
    rw [List.mem_filter, List.mem_filter]
    constructor
    · rintro ⟨⟨hmem, hallB⟩, hallO⟩
      refine ⟨hmem, ?_, ?_⟩
      · intro b hbmem hbexp
        have hfound : b ∈ expiredCheckoutBookings now st :=
          List.mem_filter.mpr ⟨hbmem, by simpa using hbexp⟩
        exact (bookingKeepsPayment_iff b p).mp (List.all_eq_true.mp hallB b hfound)
      · intro o homem hoexp
        have hfound : o ∈ expiredCheckoutOrders now st :=
          List.mem_filter.mpr ⟨homem, by simpa using hoexp⟩
        exact (orderKeepsPayment_iff o p).mp (List.all_eq_true.mp hallO o hfound)
    · rintro ⟨hmem, hB, hO⟩
      refine ⟨⟨hmem, ?_⟩, ?_⟩
      · rw [List.all_eq_true]
        intro b hbfound
        rw [expiredCheckoutBookings, List.mem_filter] at hbfound
        obtain ⟨hbmem, hbexp⟩ := hbfound
        exact (bookingKeepsPayment_iff b p).mpr (hB b hbmem (of_decide_eq_true hbexp))
      · rw [List.all_eq_true]
        intro o hofound
        rw [expiredCheckoutOrders, List.mem_filter] at hofound
        obtain ⟨homem, hoexp⟩ := hofound
        exact (orderKeepsPayment_iff o p).mpr (hO o homem (of_decide_eq_true hoexp))

/-- A database for exercising the sweeper: one expired `checkout`
booking (payment 100), one live `booked` booking, one expired
`checkout` order (payment 200), one `pending` order, and an unrelated
payment 300. -/
def sweepDb : Db :=
  { bookings :=
      [{ id := 1, customerId := 42, serviceId := 3, bookingDate := 0,
         timeSlot := "10:00-10:30", status := "checkout", cancelledBy := none,
         cancellationReason := none, totalAmount := 200000, paymentMethod := "credit_card",
         paymentStatus := "pending", paymentId := some 100, createdAt := 0 },
       { id := 2, customerId := 43, serviceId := 3, bookingDate := 0,
         timeSlot := "11:00-11:30", status := "booked", cancelledBy := none,
         cancellationReason := none, totalAmount := 200000, paymentMethod := "cash",
         paymentStatus := "pending", paymentId := none, createdAt := 0 }],
    orders :=
      [{ id := 11, customerId := 42, items := [], subtotal := 100000, shippingFee := 30000,
         discount := 0, totalAmount := 130000, status := "checkout", statusHistory := [],
         paymentMethod := "credit_card", paymentStatus := "pending", cancelledBy := none,
         cancelReason := none, checkoutExpiration := 900000, paymentId := some 200,
         createdAt := 0 },
       { id := 12, customerId := 43, items := [], subtotal := 100000, shippingFee := 30000,
         discount := 0, totalAmount := 130000, status := "pending",
         statusHistory := [{ status := "pending", timestamp := 0, note := "Đơn hàng đã được đặt" }],
         paymentMethod := "cash", paymentStatus := "pending", cancelledBy := none,
         cancelReason := none, checkoutExpiration := 900000, paymentId := none,
         createdAt := 0 }],
    payments :=
      [{ id := 100, paymentNumber := "PM_1", targetType := "booking", targetId := 1,
         customerId := 42, amount := 200000, clientSecret := some "cs_100", status := "pending" },
       { id := 200, paymentNumber := "PM_2", targetType := "order", targetId := 11,
         customerId := 42, amount := 130000, clientSecret := some "cs_200", status := "pending" },
       { id := 300, paymentNumber := "PM_3", targetType := "order", targetId := 12,
         customerId := 43, amount := 130000, clientSecret := some "cs_300", status := "pending" }] }

/-- Witness for the C5 theorem at `now` = 10 000 000 ms: the surviving
`booked` booking is characterized by the theorem's first conjunct. -/
theorem sweeperRun_deletes_exactly_expired_witness :
    { id := 2, customerId := 43, serviceId := 3, bookingDate := 0,
      timeSlot := "11:00-11:30", status := "booked", cancelledBy := none,
      cancellationReason := none, totalAmount := 200000, paymentMethod := "cash",
      paymentStatus := "pending", paymentId := none, createdAt := 0 : Booking } ∈
        (sweeperRun 10000000 sweepDb).bookings ↔
    ({ id := 2, customerId := 43, serviceId := 3, bookingDate := 0,
       timeSlot := "11:00-11:30", status := "booked", cancelledBy := none,
       cancellationReason := none, totalAmount := 200000, paymentMethod := "cash",
       paymentStatus := "pending", paymentId := none, createdAt := 0 : Booking } ∈
          sweepDb.bookings ∧
      ¬(("booked" : String) = "checkout" ∧ (0 : Int) < 10000000 - 5 * 60 * 1000)) :=
  (sweeperRun_deletes_exactly_expired 10000000 sweepDb (by decide) (by decide)).1
    { id := 2, customerId := 43, serviceId := 3, bookingDate := 0,
      timeSlot := "11:00-11:30", status := "booked", cancelledBy := none,
      cancellationReason := none, totalAmount := 200000, paymentMethod := "cash",
      paymentStatus := "pending", paymentId := none, createdAt := 0 }


/-! ## C6 / C10 — payment confirmation and cancellation -/

/-- Replacing, in a list, every element whose key equals `y`'s key by
`y` maps an id lookup for that key through the replacement. -/
theorem find?_id_map_set {α : Type} (k : α → Nat) (y : α) (t : Nat) (hy : k y = t) :
    ∀ l : List α,
      (l.map (fun x => if k x = k y then y else x)).find? (fun x => decide (k x = t))
        = (l.find? (fun x => decide (k x = t))).map (fun _ => y)
  | [] => rfl
  | x :: xs => by
    by_cases hx : k x = k y
    · simp [hx, hy]
    · have hxt : ¬ k x = t := fun hc => hx (hc.trans hy.symm)
      simp [hx, hxt, find?_id_map_set k y t hy xs]

theorem dbFindOrder_savePayment (db : Db) (q : Payment) (tid : Nat) :
    dbFindOrder (savePayment db q) tid = dbFindOrder db tid := rfl

theorem dbFindBooking_savePayment (db : Db) (q : Payment) (tid : Nat) :
    dbFindBooking (savePayment db q) tid = dbFindBooking db tid := rfl

theorem dbFindPayment_dbSaveOrder (db : Db) (o : Order) (pid : Nat) :
    dbFindPayment (dbSaveOrder db o) pid = dbFindPayment db pid := rfl

theorem dbFindPayment_dbSaveBooking (db : Db) (b : Booking) (pid : Nat) :
    dbFindPayment (dbSaveBooking db b) pid = dbFindPayment db pid := rfl

theorem dbFindOrder_dbSaveOrder (db : Db) (o : Order) (tid : Nat) (h : o.id = tid) :
    dbFindOrder (dbSaveOrder db o) tid = (dbFindOrder db tid).map (fun _ => o) :=
  find?_id_map_set (fun x : Order => x.id) o tid h db.orders

theorem dbFindBooking_dbSaveBooking (db : Db) (b : Booking) (tid : Nat) (h : b.id = tid) :
    dbFindBooking (dbSaveBooking db b) tid = (dbFindBooking db tid).map (fun _ => b) :=
  find?_id_map_set (fun x : Booking => x.id) b tid h db.bookings

theorem dbFindPayment_savePayment (db : Db) (q : Payment) (pid : Nat) (h : q.id = pid) :
    dbFindPayment (savePayment db q) pid = (dbFindPayment db pid).map (fun _ => q) :=
  find?_id_map_set (fun x : Payment => x.id) q pid h db.payments

/-- A payment found by client secret is in the store, so an id lookup
for it succeeds (with some record of that id). -/
theorem dbFindPayment_of_clientSecret {db : Db} {cs : String} {p : Payment}
    (h : findPaymentByClientSecret db cs = some p) :
    ∃ q, dbFindPayment db p.id = some q := by
  have hmem : p ∈ db.payments := List.mem_of_find?_eq_some h
  have hsome : (db.payments.find? (fun x => decide (x.id = p.id))).isSome :=
    List.find?_isSome.mpr ⟨p, hmem, by simp⟩
  exact Option.isSome_iff_exists.mp hsome

/-- C6: `confirmPayment` fails `NotFound` when no payment matches the
client secret and `Forbidden` when the matched payment is not owned by
the caller; otherwise it completes the payment and, for an existing
`checkout` order target, marks it `paid` and advances it to `pending`
(for a `checkout` booking target, to `booked`).  `cancelPayment` under
the same preconditions fails the payment and the target's
`paymentStatus` while leaving the target's lifecycle status (still
`checkout`) untouched. -/
theorem confirmPayment_cancelPayment_spec (cs : String) (uid : Nat) (db : Db) :
    (findPaymentByClientSecret db cs = none →
      (confirmPayment cs uid db).1 = Except.error ⟨ErrCode.notFound, "Payment not found"⟩ ∧
      (cancelPayment cs uid db).1 = Except.error ⟨ErrCode.notFound, "Payment not found"⟩) ∧
    (∀ p, findPaymentByClientSecret db cs = some p → p.customerId ≠ uid →
      (confirmPayment cs uid db).1 = Except.error ⟨ErrCode.forbidden, "Access denied"⟩ ∧
      (cancelPayment cs uid db).1 = Except.error ⟨ErrCode.forbidden, "Access denied"⟩) ∧
    (∀ p o, findPaymentByClientSecret db cs = some p → p.customerId = uid →
      p.targetType = "order" → dbFindOrder db p.targetId = some o → o.status = "checkout" →
      (confirmPayment cs uid db).1 = Except.ok { p with status := "completed" } ∧
      dbFindPayment (confirmPayment cs uid db).2 p.id =
        (dbFindPayment db p.id).map (fun _ => { p with status := "completed" }) ∧
      dbFindOrder (confirmPayment cs uid db).2 p.targetId =
        some { o with paymentStatus := "paid", status := "pending" } ∧
      (cancelPayment cs uid db).1 = Except.ok () ∧
      dbFindPayment (cancelPayment cs uid db).2 p.id =
        (dbFindPayment db p.id).map (fun _ => { p with status := "failed" }) ∧
      dbFindOrder (cancelPayment cs uid db).2 p.targetId =
        some { o with paymentStatus := "failed" }) ∧
    (∀ p b, findPaymentByClientSecret db cs = some p → p.customerId = uid →
      p.targetType = "booking" → dbFindBooking db p.targetId = some b → b.status = "checkout" →
      (confirmPayment cs uid db).1 = Except.ok { p with status := "completed" } ∧
      dbFindBooking (confirmPayment cs uid db).2 p.targetId =
        some { b with paymentStatus := "paid", status := "booked" } ∧
      dbFindBooking (cancelPayment cs uid db).2 p.targetId =
        some { b with paymentStatus := "failed" }) := by
  refine ⟨?_, ?_, ?_, ?_⟩
  · intro h
    unfold confirmPayment cancelPayment
    rw [h]
    exact ⟨rfl, rfl⟩
  · intro p hp hne
    unfold confirmPayment cancelPayment
    simp only [hp]
    rw [if_pos hne, if_pos hne]
    exact ⟨rfl, rfl⟩
  · intro p o hp hown htt hord hst
    have hne : ¬ p.customerId ≠ uid := fun hc => hc hown
    have hoid : o.id = p.targetId := by simpa using List.find?_some hord
    have hconfirm : confirmPayment cs uid db =
        (Except.ok { p with status := "completed" },
          dbSaveOrder (savePayment db { p with status := "completed" })
            { o with paymentStatus := "paid", status := "pending" }) := by
      unfold confirmPayment
      simp only [hp]
      rw [if_neg hne]
      simp only [htt, String.reduceEq, reduceIte]
      rw [dbFindOrder_savePayment, hord]
      simp [hst]
    have hcancel : cancelPayment cs uid db =
        (Except.ok (),
          dbSaveOrder (savePayment db { p with status := "failed" })
            { o with paymentStatus := "failed" }) := by
      unfold cancelPayment
      simp only [hp]
      rw [if_neg hne]
      simp only [htt, String.reduceEq, reduceIte]
      rw [dbFindOrder_savePayment, hord]
    refine ⟨by rw [hconfirm], ?_, ?_, by rw [hcancel], ?_, ?_⟩
    · rw [hconfirm]
      rw [dbFindPayment_dbSaveOrder,
        dbFindPayment_savePayment db { p with status := "completed" } p.id rfl]
    · rw [hconfirm]
      rw [dbFindOrder_dbSaveOrder (savePayment db { p with status := "completed" })
          { o with paymentStatus := "paid", status := "pending" } p.targetId hoid,
        dbFindOrder_savePayment, hord]
      rfl
    · rw [hcancel]
      rw [dbFindPayment_dbSaveOrder,
        dbFindPayment_savePayment db { p with status := "failed" } p.id rfl]
    · rw [hcancel]
      rw [dbFindOrder_dbSaveOrder (savePayment db { p with status := "failed" })
          { o with paymentStatus := "failed" } p.targetId hoid,
        dbFindOrder_savePayment, hord]
      rfl
  · intro p b hp hown htt hbk hst
    have hne : ¬ p.customerId ≠ uid := fun hc => hc hown
    have hbid : b.id = p.targetId := by simpa using List.find?_some hbk
    have hnotOrder : ¬ p.targetType = "order" := by rw [htt]; decide
    have hconfirm : confirmPayment cs uid db =
        (Except.ok { p with status := "completed" },
          dbSaveBooking (savePayment db { p with status := "completed" })
            { b with paymentStatus := "paid", status := "booked" }) := by
      unfold confirmPayment
      simp only [hp]
      rw [if_neg hne]
      simp only [htt, String.reduceEq, reduceIte]
      rw [dbFindBooking_savePayment, hbk]
      simp [hst]
    have hcancel : cancelPayment cs uid db =
        (Except.ok (),
          dbSaveBooking (savePayment db { p with status := "failed" })
            { b with paymentStatus := "failed" }) := by
      unfold cancelPayment
      simp only [hp]
      rw [if_neg hne]
      simp only [htt, String.reduceEq, reduceIte]
      rw [dbFindBooking_savePayment, hbk]
    refine ⟨by rw [hconfirm], ?_, ?_⟩
    · rw [hconfirm]
      rw [dbFindBooking_dbSaveBooking (savePayment db { p with status := "completed" })
          { b with paymentStatus := "paid", status := "booked" } p.targetId hbid,
        dbFindBooking_savePayment, hbk]
      rfl
    · rw [hcancel]
      rw [dbFindBooking_dbSaveBooking (savePayment db { p with status := "failed" })
          { b with paymentStatus := "failed" } p.targetId hbid,
        dbFindBooking_savePayment, hbk]
      rfl

/-- Witness for C6 at a concrete database: confirming payment 200 (for
`checkout` order 11) completes the payment and moves the order to
`paid` / `pending`. -/
theorem confirmPayment_cancelPayment_spec_witness :
    (confirmPayment "cs_200" 42 sweepDb).1 =
      Except.ok
        { id := 200, paymentNumber := "PM_2", targetType := "order", targetId := 11,
          customerId := 42, amount := 130000, clientSecret := some "cs_200",
          status := "completed" } ∧
    dbFindOrder (confirmPayment "cs_200" 42 sweepDb).2 11 =
      some
        { id := 11, customerId := 42, items := [], subtotal := 100000, shippingFee := 30000,
          discount := 0, totalAmount := 130000, status := "pending", statusHistory := [],
          paymentMethod := "credit_card", paymentStatus := "paid", cancelledBy := none,
          cancelReason := none, checkoutExpiration := 900000, paymentId := some 200,
          createdAt := 0 } := by
  have h := (confirmPayment_cancelPayment_spec "cs_200" 42 sweepDb).2.2.1
    { id := 200, paymentNumber := "PM_2", targetType := "order", targetId := 11,
      customerId := 42, amount := 130000, clientSecret := some "cs_200", status := "pending" }
    { id := 11, customerId := 42, items := [], subtotal := 100000, shippingFee := 30000,
      discount := 0, totalAmount := 130000, status := "checkout", statusHistory := [],
      paymentMethod := "credit_card", paymentStatus := "pending", cancelledBy := none,
      cancelReason := none, checkoutExpiration := 900000, paymentId := some 200, createdAt := 0 }
    rfl rfl rfl rfl rfl
  exact ⟨h.1, h.2.2.1⟩

/-- C10: when the payment resolves and is owned by the caller but its
order or booking target no longer exists, `confirmPayment` and
`cancelPayment` still succeed: only the payment's status is updated
(`completed` / `failed`), and the orders and bookings collections are
untouched. -/
theorem payment_missing_target_skipped (cs : String) (uid : Nat) (db : Db) :
    (∀ p, findPaymentByClientSecret db cs = some p → p.customerId = uid →
      p.targetType = "order" → dbFindOrder db p.targetId = none →
      (confirmPayment cs uid db).1 = Except.ok { p with status := "completed" } ∧
      (confirmPayment cs uid db).2.orders = db.orders ∧
      (confirmPayment cs uid db).2.bookings = db.bookings ∧
      dbFindPayment (confirmPayment cs uid db).2 p.id =
        (dbFindPayment db p.id).map (fun _ => { p with status := "completed" }) ∧
      (cancelPayment cs uid db).1 = Except.ok () ∧
      (cancelPayment cs uid db).2.orders = db.orders ∧
      (cancelPayment cs uid db).2.bookings = db.bookings ∧
      dbFindPayment (cancelPayment cs uid db).2 p.id =
        (dbFindPayment db p.id).map (fun _ => { p with status := "failed" })) ∧
    (∀ p, findPaymentByClientSecret db cs = some p → p.customerId = uid →
      p.targetType = "booking" → dbFindBooking db p.targetId = none →
      (confirmPayment cs uid db).1 = Except.ok { p with status := "completed" } ∧
      (confirmPayment cs uid db).2.orders = db.orders ∧
      (confirmPayment cs uid db).2.bookings = db.bookings ∧
      (cancelPayment cs uid db).1 = Except.ok () ∧
      (cancelPayment cs uid db).2.orders = db.orders ∧
      (cancelPayment cs uid db).2.bookings = db.bookings) := by
  constructor
  · intro p hp hown htt hnone
    have hne : ¬ p.customerId ≠ uid := fun hc => hc hown
    have hc1 : confirmPayment cs uid db =
        (Except.ok { p with status := "completed" },
          savePayment db { p with status := "completed" }) := by
      unfold confirmPayment
      simp only [hp]
      rw [if_neg hne]
      simp only [htt, String.reduceEq, reduceIte]
      rw [dbFindOrder_savePayment, hnone]
    have hc2 : cancelPayment cs uid db =
        (Except.ok (), savePayment db { p with status := "failed" }) := by
      unfold cancelPayment
      simp only [hp]
      rw [if_neg hne]
      simp only [htt, String.reduceEq, reduceIte]
      rw [dbFindOrder_savePayment, hnone]
    refine ⟨by rw [hc1], by rw [hc1]; rfl, by rw [hc1]; rfl, ?_,
      by rw [hc2], by rw [hc2]; rfl, by rw [hc2]; rfl, ?_⟩
    · rw [hc1, dbFindPayment_savePayment db { p with status := "completed" } p.id rfl]
    · rw [hc2, dbFindPayment_savePayment db { p with status := "failed" } p.id rfl]
  · intro p hp hown htt hnone
    have hne : ¬ p.customerId ≠ uid := fun hc => hc hown
    have hnotOrder : ¬ p.targetType = "order" := by rw [htt]; decide
    have hc1 : confirmPayment cs uid db =
        (Except.ok { p with status := "completed" },
          savePayment db { p with status := "completed" }) := by
      unfold confirmPayment
      simp only [hp]
      rw [if_neg hne]
      simp only [htt, String.reduceEq, reduceIte]
      rw [dbFindBooking_savePayment, hnone]
    have hc2 : cancelPayment cs uid db =
        (Except.ok (), savePayment db { p with status := "failed" }) := by
      unfold cancelPayment
      simp only [hp]
      rw [if_neg hne]
      simp only [htt, String.reduceEq, reduceIte]
      rw [dbFindBooking_savePayment, hnone]
    exact ⟨by rw [hc1], by rw [hc1]; rfl, by rw [hc1]; rfl,
      by rw [hc2], by rw [hc2]; rfl, by rw [hc2]; rfl⟩

/-- A database holding only a payment whose order target (id 99) does
not exist — as after the sweeper deleted the expired order. -/
def orphanDb : Db :=
  { bookings := [], orders := [],
    payments := [{ id := 400, paymentNumber := "PM_4", targetType := "order", targetId := 99,
                   customerId := 42, amount := 130000, clientSecret := some "cs_400",
                   status := "pending" }] }

/-- Witness for C10: confirming the orphaned payment succeeds and
leaves the (empty) orders collection untouched. -/
theorem payment_missing_target_skipped_witness :
    (confirmPayment "cs_400" 42 orphanDb).1 =
      Except.ok
        { id := 400, paymentNumber := "PM_4", targetType := "order", targetId := 99,
          customerId := 42, amount := 130000, clientSecret := some "cs_400",
          status := "completed" } ∧
    (confirmPayment "cs_400" 42 orphanDb).2.orders = orphanDb.orders := by
  have h := (payment_missing_target_skipped "cs_400" 42 orphanDb).1
    { id := 400, paymentNumber := "PM_4", targetType := "order", targetId := 99,
      customerId := 42, amount := 130000, clientSecret := some "cs_400", status := "pending" }
    rfl rfl rfl rfl
  exact ⟨h.1, h.2.1⟩

/-! ## C7 — the slot calculator -/

set_option maxRecDepth 8000 in
/-- C7: for open 09:00, close 12:00, slot duration 30 and service
duration 30, `generateTimeslots` produces exactly the six half-hour
candidates; for any capacity `C`, a single reservation coinciding with
the 10:00-10:30 slot lowers that slot's `availableSpots` to
`max 0 (C - 1)` (never negative) and leaves every other slot at `C`;
with capacity 1 the full `filterAvailableSlots` removes exactly that
slot, returning the other five; and every slot returned by
`filterAvailableSlots` has strictly positive `availableSpots`. -/
theorem slotCalculator_correct :
    (generateTimeslots "09:00" "12:00" 30 30).map (fun s => (s.startTime, s.endTime)) =
      [("09:00", "09:30"), ("09:30", "10:00"), ("10:00", "10:30"),
       ("10:30", "11:00"), ("11:00", "11:30"), ("11:30", "12:00")] ∧
    (∀ C : Int,
      applyBookedSlot
        ((generateTimeslots "09:00" "12:00" 30 30).map
          (fun s => { s with availableSpots := C }))
        { startTime := "10:00", endTime := "10:30" } =
      [{ startTime := "09:00", endTime := "09:30", availableSpots := C },
       { startTime := "09:30", endTime := "10:00", availableSpots := C },
       { startTime := "10:00", endTime := "10:30", availableSpots := max 0 (C - 1) },
       { startTime := "10:30", endTime := "11:00", availableSpots := C },
       { startTime := "11:00", endTime := "11:30", availableSpots := C },
       { startTime := "11:30", endTime := "12:00", availableSpots := C }]) ∧
    filterAvailableSlots (generateTimeslots "09:00" "12:00" 30 30)
        [{ startTime := "10:00", endTime := "10:30" }] 1 =
      [{ startTime := "09:00", endTime := "09:30", availableSpots := 1 },
       { startTime := "09:30", endTime := "10:00", availableSpots := 1 },
       { startTime := "10:30", endTime := "11:00", availableSpots := 1 },
       { startTime := "11:00", endTime := "11:30", availableSpots := 1 },
       { startTime := "11:30", endTime := "12:00", availableSpots := 1 }] ∧
    (∀ (slots : List Timeslot) (bookedSlots : List BookedSlot) (capacity : Int),
      ∀ s ∈ filterAvailableSlots slots bookedSlots capacity, 0 < s.availableSpots) := by
  refine ⟨by decide, ?_, by decide, ?_⟩
  · intro C
    rfl
  · intro slots bookedSlots capacity s hs
    simp only [filterAvailableSlots] at hs
    exact of_decide_eq_true (List.mem_filter.mp hs).2

/-- Witness for C7's positivity conjunct at the scenario's output. -/
theorem slotCalculator_correct_witness :
    (0 : Int) <
      ({ startTime := "09:00", endTime := "09:30", availableSpots := 1 } : Timeslot).availableSpots :=
  slotCalculator_correct.2.2.2 (generateTimeslots "09:00" "12:00" 30 30)
    [{ startTime := "10:00", endTime := "10:30" }] 1
    { startTime := "09:00", endTime := "09:30", availableSpots := 1 } (by decide)

/-! ## C8 — service review creation and rating aggregation -/

/-- Replacing, in a list, every element whose key equals `t` by `y`
(whose key is `t`) maps an id lookup for `t` through the replacement. -/
theorem find?_set_of_key {α : Type} (k : α → Nat) (y : α) (t : Nat) (hy : k y = t) :
    ∀ l : List α,
      (l.map (fun x => if k x = t then y else x)).find? (fun x => decide (k x = t))
        = (l.find? (fun x => decide (k x = t))).map (fun _ => y)
  | [] => rfl
  | x :: xs => by
    by_cases hx : k x = t
    · simp [hx, hy]
    · simp [hx, find?_set_of_key k y t hy xs]

/-- The review body used in the C8 scenarios: customer 42 reviews the
service via booking 5 with rating 5. -/
def rateBody : ReviewBody :=
  { sourceId := 5, customerId := 42, rating := 5, content := "Great", photos := [] }

/-- State whose booking 5 is still `booked` (not completed). -/
def rateDbBad : ReviewDb :=
  { services := [{ id := 1, name := "Grooming", price := 200000, salePrice := 0,
                   onSale := false, capacity := 1, duration := 30, usageCount := 0,
                   ratings := { count := 2, totalStars := 8, average := 4 },
                   recentReviews := [] }],
    reviews := [],
    users := [{ id := 42, fullname := "An", avatar := none }],
    bookings := [{ id := 5, customerId := 42, serviceId := 1, bookingDate := 0,
                   timeSlot := "10:00-10:30", status := "booked", cancelledBy := none,
                   cancellationReason := none, totalAmount := 200000,
                   paymentMethod := "cash", paymentStatus := "pending",
                   paymentId := none, createdAt := 0 }] }

/-- C8 counterexample: a review against a booking that is not
`completed` is rejected with `Forbidden` (HTTP 403), not with
`BadRequest` (HTTP 400) as claimed. -/
theorem createServiceReview_rejects_with_forbidden :
    errCodeOf (createServiceReview 10 1 rateBody rateDbBad).1 = some ErrCode.forbidden ∧
    ErrCode.forbidden ≠ ErrCode.badRequest := by
  refine ⟨rfl, by decide⟩

/-- C8 (amended): with the source booking resolved, owned by the
reviewer, matching the service and not yet reviewed, a non-`completed`
booking is rejected with `Forbidden` (not `BadRequest`); a `completed`
one yields the review, and the service's ratings are updated so that
`count` increments, `totalStars` grows by the rating, and
`average = Math.round((totalStars/count)*10)/10`. -/
theorem createServiceReview_spec
    (newId sid : Nat) (body : ReviewBody) (st : ReviewDb)
    (sv : Service) (u : User) (bk : Booking)
    (hsv : st.services.find? (fun s => s.id = sid) = some sv)
    (hdup : st.reviews.find? (fun r =>
        r.targetId = sid ∧ r.sourceId = body.sourceId ∧ r.customerId = body.customerId) = none)
    (hu : st.users.find? (fun x => x.id = body.customerId) = some u)
    (hbk : st.bookings.find? (fun b => b.id = body.sourceId) = some bk)
    (hown : bk.customerId = body.customerId)
    (hsvc : bk.serviceId = sid) :
    (bk.status ≠ "completed" →
      (createServiceReview newId sid body st).1 =
        Except.error ⟨ErrCode.forbidden, "You can only review completed bookings"⟩) ∧
    (bk.status = "completed" →
      (createServiceReview newId sid body st).1 = Except.ok
        { id := newId, targetType := "service", targetId := sid, sourceType := "booking",
          sourceId := body.sourceId, customerId := body.customerId, rating := body.rating,
          content := body.content, photos := body.photos, customerName := u.fullname,
          customerAvatar := u.avatar } ∧
      (createServiceReview newId sid body st).2.services.find? (fun s => s.id = sid) =
        some { sv with
          recentReviews := sv.recentReviews ++ [newId],
          ratings := { count := sv.ratings.count + 1,
                       totalStars := sv.ratings.totalStars + body.rating,
                       average := (jsRound ((((sv.ratings.totalStars + body.rating : Nat) : ℚ) /
                           ((sv.ratings.count + 1 : Nat) : ℚ)) * 10) : ℚ) / 10 } }) := by
  have hsvid : sv.id = sid := by simpa using List.find?_some hsv
  constructor
  · intro hst
    unfold createServiceReview
    simp only [hsv, hdup, hu, hbk]
    rw [if_neg (fun hc => hc hown), if_neg (fun hc => hc hsvc), if_pos hst]
  · intro hst
    have heq : createServiceReview newId sid body st =
        (Except.ok
          { id := newId, targetType := "service", targetId := sid, sourceType := "booking",
            sourceId := body.sourceId, customerId := body.customerId, rating := body.rating,
            content := body.content, photos := body.photos, customerName := u.fullname,
            customerAvatar := u.avatar },
          { st with
              reviews := st.reviews ++
                [{ id := newId, targetType := "service", targetId := sid,
                   sourceType := "booking", sourceId := body.sourceId,
                   customerId := body.customerId, rating := body.rating,
                   content := body.content, photos := body.photos,
                   customerName := u.fullname, customerAvatar := u.avatar }],
              services := st.services.map (fun s =>
                if s.id = sid then
                  { sv with
                      recentReviews := sv.recentReviews ++ [newId],
                      ratings := { count := sv.ratings.count + 1,
                                   totalStars := sv.ratings.totalStars + body.rating,
                                   average := (jsRound ((((sv.ratings.totalStars + body.rating : Nat) : ℚ) /
                                       ((sv.ratings.count + 1 : Nat) : ℚ)) * 10) : ℚ) / 10 } }
                else s) }) := by
      unfold createServiceReview
      simp only [hsv, hdup, hu, hbk]
      rw [if_neg (fun hc => hc hown), if_neg (fun hc => hc hsvc),
        if_neg (fun hc => hc hst)]
    refine ⟨by rw [heq], ?_⟩
    rw [heq]
    rw [find?_set_of_key (fun s : Service => s.id)
        { sv with
            recentReviews := sv.recentReviews ++ [newId],
            ratings := { count := sv.ratings.count + 1,
                         totalStars := sv.ratings.totalStars + body.rating,
                         average := (jsRound ((((sv.ratings.totalStars + body.rating : Nat) : ℚ) /
                             ((sv.ratings.count + 1 : Nat) : ℚ)) * 10) : ℚ) / 10 } }
        sid hsvid st.services, hsv]
    rfl

/-- State identical to `rateDbBad` except the booking is `completed`. -/
def rateDbGood : ReviewDb :=
  { services := [{ id := 1, name := "Grooming", price := 200000, salePrice := 0,
                   onSale := false, capacity := 1, duration := 30, usageCount := 0,
                   ratings := { count := 2, totalStars := 8, average := 4 },
                   recentReviews := [] }],
    reviews := [],
    users := [{ id := 42, fullname := "An", avatar := none }],
    bookings := [{ id := 5, customerId := 42, serviceId := 1, bookingDate := 0,
                   timeSlot := "10:00-10:30", status := "completed", cancelledBy := none,
                   cancellationReason := none, totalAmount := 200000,
                   paymentMethod := "cash", paymentStatus := "paid",
                   paymentId := none, createdAt := 0 }] }

/-- Witness for C8's amended theorem at the spec's example: 2 reviews
totalling 8 stars plus a new rating of 5 give count 3, totalStars 13
and average `round(13/3, 1) = 4.3`. -/
theorem createServiceReview_spec_witness :
    (createServiceReview 10 1 rateBody rateDbGood).2.services.find? (fun s => s.id = 1) =
      some { id := 1, name := "Grooming", price := 200000, salePrice := 0,
             onSale := false, capacity := 1, duration := 30, usageCount := 0,
             ratings := { count := 3, totalStars := 13, average := 43 / 10 },
             recentReviews := [10] } := by
  have h := (createServiceReview_spec 10 1 rateBody rateDbGood
    { id := 1, name := "Grooming", price := 200000, salePrice := 0,
      onSale := false, capacity := 1, duration := 30, usageCount := 0,
      ratings := { count := 2, totalStars := 8, average := 4 }, recentReviews := [] }
    { id := 42, fullname := "An", avatar := none }
    { id := 5, customerId := 42, serviceId := 1, bookingDate := 0,
      timeSlot := "10:00-10:30", status := "completed", cancelledBy := none,
      cancellationReason := none, totalAmount := 200000,
      paymentMethod := "cash", paymentStatus := "paid",
      paymentId := none, createdAt := 0 }
    rfl rfl rfl rfl rfl rfl).2 rfl
  refine h.2.trans ?_
  norm_num [jsRound, rateBody]

/-! ## C9 — persisted identifier formats -/

/-- C9 counterexample: the first generated order number is
`ORD-000001` — prefix plus a zero-padded sequence number, only 10
characters long — so it cannot be split as any prefix followed by an
8-character date, a 6-character time and an 8-character suffix.  (The
booking hook `BKN-…` is identical; only the payment hook uses the
date/time/UUID scheme.)  Because the sequence number is read from the
current document count, two saves racing on the same count also
receive the same identifier. -/
theorem orderNumber_not_in_claimed_format :
    genOrderNumber 0 = "ORD-000001" ∧
    genBookingNumber 0 = "BKN-000001" ∧
    ¬ ∃ pre d t suf : String,
        "ORD-000001" = pre ++ d ++ t ++ suf ∧
        d.length = 8 ∧ t.length = 6 ∧ suf.length = 8 := by
  refine ⟨rfl, rfl, ?_⟩
  rintro ⟨pre, d, t, suf, heq, hd, ht, hsuf⟩
  have hlen := congrArg String.length heq
  rw [String.length_append, String.length_append, String.length_append, hd, ht, hsuf] at hlen
  have h10 : ("ORD-000001" : String).length = 10 := rfl
  rw [h10] at hlen
  omega

/-- The sixteen characters a lowercase-hex UUID group is made of. -/
def hexLowerChars : List Char :=
  "0123456789abcdef".toList

theorem hexLower_toUpper_upper_or_digit :
    ∀ c ∈ hexLowerChars, (Char.toUpper c).isUpper = true ∨ (Char.toUpper c).isDigit = true := by
  decide

/-- C9 (amended): only `paymentNumber` follows the date/time scheme —
`PM_` (prefix with an underscore) ++ `YYYYMMDD` ++ `HHMMSS` ++ the
UUID's first group uppercased, which for a lowercase-hex group of
length 8 is an 8-character suffix of uppercase letters and digits. -/
theorem paymentNumber_format (dateStr timeStr uuid : String)
    (hlen : ((splitChar '-' uuid).headD "").length = 8)
    (hchars : ∀ c ∈ ((splitChar '-' uuid).headD "").toList, c ∈ hexLowerChars) :
    genPaymentNumber dateStr timeStr uuid =
      "PM_" ++ dateStr ++ timeStr ++ uuidFirstGroupUpper uuid ∧
    (uuidFirstGroupUpper uuid).length = 8 ∧
    ∀ c ∈ (uuidFirstGroupUpper uuid).toList, c.isUpper = true ∨ c.isDigit = true := by
  refine ⟨rfl, ?_, ?_⟩
  · show (jsToUpperCase ((splitChar '-' uuid).headD "")).length = 8
    unfold jsToUpperCase
    rw [show (String.mk ((((splitChar '-' uuid).headD "").toList).map Char.toUpper)).length
        = ((((splitChar '-' uuid).headD "").toList).map Char.toUpper).length from rfl]
    rw [List.length_map]
    exact hlen
  · intro c hc
    have hc' : c ∈ (((splitChar '-' uuid).headD "").toList).map Char.toUpper := hc
    obtain ⟨c0, hc0, rfl⟩ := List.mem_map.mp hc'
    exact hexLower_toUpper_upper_or_digit c0 (hchars c0 hc0)

/-- Witness for the amended C9 theorem on a concrete v4 UUID. -/
theorem paymentNumber_format_witness :
    (uuidFirstGroupUpper "9f86d081-884c-4d63-9f38-2d5d4ecaf0a1").length = 8 :=
  (paymentNumber_format "20240101" "123456" "9f86d081-884c-4d63-9f38-2d5d4ecaf0a1"
    (by decide) (by decide)).2.1

end PetApp
